import Mathlib

/-!
Verification of the UGREEN NAS LED driver (`leds.go`): a shallow embedding
of the frame codec, the checksum routines, the write-confirm retry engine
and the per-LED state cache, together with theorems settling the spec's
claims about them. Bytes are modelled as `Nat` (with explicit `% 256` /
`% 65536` where the Go code truncates); the I2C transport is modelled as an
oracle giving the outcome of each bus transaction.
-/

namespace UgreenLeds

/-- `maxRetry` constant from `leds.go`. -/
def maxRetry : Nat := 5

/-- `ledNames` table from `leds.go`. -/
def ledNames : List String :=
  ["power", "lan", "disk1", "disk2", "disk3", "disk4", "disk5", "disk6"]

/-- The `LedStatus` struct from `leds.go`. `Available : bool`, mode string,
brightness, RGB color and the two u16 timing values. -/
structure LedStatus where
  Available : Bool
  OpMode : String
  Brightness : Nat
  ColorR : Nat
  ColorG : Nat
  ColorB : Nat
  TOn : Nat
  TOff : Nat
deriving DecidableEq

/-- The Go zero value `LedStatus{}`: `false`, empty string, all numbers 0. -/
def LedStatus.zero : LedStatus :=
  { Available := false, OpMode := "", Brightness := 0,
    ColorR := 0, ColorG := 0, ColorB := 0, TOn := 0, TOff := 0 }

/-- `binary.BigEndian.Uint16` on two bytes. -/
def bigEndianU16 (hi lo : Nat) : Nat := hi * 256 + lo

/-- `verifyChecksum` from `leds.go`: sums all bytes except the last two and
compares the (untruncated) sum against the big-endian u16 stored in the last
two bytes, additionally requiring the sum to be non-zero. -/
def verifyChecksum (data : List Nat) : Bool :=
  if data.length < 2 then false
  else
    let sum := (data.take (data.length - 2)).sum
    let want := bigEndianU16 (data.getD (data.length - 2) 0) (data.getD (data.length - 1) 0)
    sum != 0 && sum == want

/-- The `opModes` table from `parseLedStatus`. -/
def opModes : List String := ["off", "on", "blink", "breath"]

/-- `parseLedStatus` from `leds.go`. On bad length or bad checksum it returns
the zero `LedStatus`; otherwise byte 0 selects the mode (index ≥ 4 maps to
"unknown"), bytes 1..4 are brightness and color, bytes 5..6 are the big-endian
cycle duration `tHigh`, bytes 7..8 the big-endian on-duration `tLow`, and
`TOff` is the u16 difference `tHigh - tLow` (wrapping, as Go u16 arithmetic). -/
def parseLedStatus (data : List Nat) : LedStatus :=
  if data.length != 11 || !verifyChecksum data then LedStatus.zero
  else
    let opModeIdx := data.getD 0 0
    let opMode := if opModeIdx < opModes.length then opModes.getD opModeIdx "" else "unknown"
    let tHigh := bigEndianU16 (data.getD 5 0) (data.getD 6 0)
    let tLow := bigEndianU16 (data.getD 7 0) (data.getD 8 0)
    { Available := true
      OpMode := opMode
      Brightness := data.getD 1 0
      ColorR := data.getD 2 0
      ColorG := data.getD 3 0
      ColorB := data.getD 4 0
      TOn := tLow
      TOff := (tHigh + 65536 - tLow) % 65536 }

/-- The frame construction inside `writeLedCommand` from `leds.go`: a 10-byte
body `[0x00 (LED-id placeholder), 0xa0, 0x01, 0x00, 0x00, command, p0..p3]`
where `copy(data[6:], params)` fills at most 4 parameter bytes (missing ones
stay 0, extra ones are not copied), then the two checksum bytes
`byte(sum>>8), byte(sum&0xff)` are appended, and only afterwards is the LED id
patched into byte 0. -/
def encodeFrame (ledID command : Nat) (params : List Nat) : List Nat :=
  let data : List Nat := [0x00, 0xa0, 0x01, 0x00, 0x00, command] ++ (params ++ [0, 0, 0, 0]).take 4
  let sum := data.sum
  let data2 := data ++ [sum / 256 % 256, sum % 256]
  data2.set 0 (ledID % 256)

/-- Oracle model of the I2C transport for one cache-level call: the outcome of
the i-th `writeLedCommand` ioctl (`none` = success, `some errno` = failure),
the 11 raw bytes delivered by the j-th confirmation poll of attempt i (`none`
= ioctl failure), and the bytes delivered by the post-success
`updateLedStatus` read. -/
structure Env where
  writeErrno : Nat → Option Nat
  readBytes : Nat → Nat → Option (List Nat)
  statusReadBytes : Option (List Nat)

/-- The mode test inside `confirmStatus`: with `wantOn == nil` any reply
counts, otherwise the reported `OpMode` must be "on" / "off" accordingly. -/
def wantMatches (wantOn : Option Bool) (st : LedStatus) : Bool :=
  match wantOn with
  | none => true
  | some true => st.OpMode == "on"
  | some false => st.OpMode == "off"

/-- The polling loop of `confirmStatus` from `leds.go`: up to `fuel` reads
(starting at poll index `j`), each parsed by `readLedStatus`/`parseLedStatus`;
returns true as soon as a reply is available and matches `wantOn`, false when
the polling budget is exhausted. -/
def confirmStatusAux (wantOn : Option Bool) (reads : Nat → Option (List Nat)) :
    Nat → Nat → Bool
  | _, 0 => false
  | j, fuel + 1 =>
    match reads j with
    | some bytes =>
      let st := parseLedStatus bytes
      if st.Available && wantMatches wantOn st then true
      else confirmStatusAux wantOn reads (j + 1) fuel
    | none => confirmStatusAux wantOn reads (j + 1) fuel

/-- `confirmStatus` from `leds.go`: `maxRetry` polls starting at index 0. -/
def confirmStatus (wantOn : Option Bool) (reads : Nat → Option (List Nat)) : Bool :=
  confirmStatusAux wantOn reads 0 maxRetry

/-- The error built by `modifyLedWithRetry` when its retry budget is
exhausted: `fmt.Errorf("failed to set %s after %d retries: %v", ledNames[id],
maxRetry, lastErr)` carries the LED's name, the retry count and the last
transport error. -/
structure CmdFailed where
  ledName : String
  retries : Nat
  lastErrno : Option Nat
deriving DecidableEq

/-- The retry loop of `modifyLedWithRetry` from `leds.go`, with `fuel`
attempts remaining starting at attempt index `i` and `lastErr` the error of
the previous write. Each attempt performs one `writeLedCommand` (so the
second component counts the bus write transactions performed); if the write
succeeded at the transport level and `confirmStatus` confirms it, the loop
returns success (`none`); once the budget is exhausted it returns the
`CmdFailed` error carrying the last write's transport error. -/
def modifyAux (env : Env) (id : Nat) (wantOn : Option Bool) :
    Nat → Nat → Option Nat → Option CmdFailed × Nat
  | _, 0, lastErr => (some ⟨ledNames.getD id "", maxRetry, lastErr⟩, 0)
  | i, fuel + 1, _ =>
    let e := env.writeErrno i
    if e.isNone && confirmStatus wantOn (env.readBytes i) then (none, 1)
    else
      let r := modifyAux env id wantOn (i + 1) fuel e
      (r.1, r.2 + 1)

/-- `modifyLedWithRetry` from `leds.go`: `maxRetry` write attempts starting
at attempt 0 with no previous error. `command` and `params` determine the
frame written on each attempt (see `encodeFrame`) but not the control flow,
which depends only on the transport outcomes in `env`. -/
def modifyLedWithRetry (env : Env) (id command : Nat) (params : List Nat)
    (wantOn : Option Bool) : Option CmdFailed × Nat :=
  modifyAux env id wantOn 0 maxRetry none

/-- The `ledState` cache entry struct from `leds.go`. -/
structure ledState where
  color : Nat × Nat × Nat
  brightness : Nat
  mode : Nat
  params : Nat × Nat × Nat × Nat
deriving DecidableEq

/-- The Go zero value of `ledState` (the value a map access yields for an
absent key). -/
def ledState.zero : ledState :=
  { color := (0, 0, 0), brightness := 0, mode := 0, params := (0, 0, 0, 0) }

/-- The mutable part of the `UGreenLeds` handle: the per-LED state cache
`lastLedStates` (a Go map read with zero default) and the secondary status
cache `lastLedStatus` (`none` = key absent). -/
structure UGreenLeds where
  lastLedStates : Nat → ledState
  lastLedStatus : Nat → Option LedStatus

/-- A freshly constructed handle: both caches empty. -/
def UGreenLeds.new : UGreenLeds :=
  { lastLedStates := fun _ => ledState.zero, lastLedStatus := fun _ => none }

/-- `updateLedStatus` from `leds.go`: a best-effort status read whose result
(modelled by `r`) refreshes `lastLedStatus[id]` when the read did not fail;
errors are swallowed. -/
def updateLedStatus (u : UGreenLeds) (id : Nat) (r : Option (List Nat)) : UGreenLeds :=
  match r with
  | none => u
  | some bytes =>
    { u with lastLedStatus := fun j => if j = id then some (parseLedStatus bytes) else u.lastLedStatus j }

/-- `setLedColor` from `leds.go`: cache hit returns nil with no bus traffic;
otherwise a write-confirm cycle with command 0x02, and only on success the
cached color and the status cache are updated. The third component counts the
bus write transactions performed. -/
def setLedColor (u : UGreenLeds) (env : Env) (id r g b : Nat) :
    Option CmdFailed × UGreenLeds × Nat :=
  let state := u.lastLedStates id
  if state.color = (r, g, b) then (none, u, 0)
  else
    let res := modifyLedWithRetry env id 0x02 [r, g, b] none
    match res.1 with
    | none =>
      let state2 := { state with color := (r, g, b) }
      let u2 : UGreenLeds :=
        { u with lastLedStates := fun j => if j = id then state2 else u.lastLedStates j }
      (none, updateLedStatus u2 id env.statusReadBytes, res.2)
    | some e => (some e, u, res.2)

/-- `setLedBrightness` from `leds.go`, the brightness analogue of
`setLedColor` with command 0x01. -/
def setLedBrightness (u : UGreenLeds) (env : Env) (id v : Nat) :
    Option CmdFailed × UGreenLeds × Nat :=
  let state := u.lastLedStates id
  if state.brightness = v then (none, u, 0)
  else
    let res := modifyLedWithRetry env id 0x01 [v] none
    match res.1 with
    | none =>
      let state2 := { state with brightness := v }
      let u2 : UGreenLeds :=
        { u with lastLedStates := fun j => if j = id then state2 else u.lastLedStates j }
      (none, updateLedStatus u2 id env.statusReadBytes, res.2)
    | some e => (some e, u, res.2)

/-- Outcome of a Go function call that may panic. -/
inductive GoResult (α : Type) where
  | ok : α → GoResult α
  | panicked : GoResult α
deriving DecidableEq

/-- The no-op guard at the top of `setLedMode`: when the cached mode equals
the requested one, modes 0/1 short-circuit to nil; for modes 2/3 with non-nil
params the guard evaluates `params[0] ... params[3]` (an out-of-range panic
when `len(params) < 4`) and short-circuits when the cached params match.
Returns whether the call short-circuits. -/
def modeNoop (state : ledState) (mode : Nat) (params : Option (List Nat)) : GoResult Bool :=
  if state.mode = mode then
    if mode = 0 ∨ mode = 1 then .ok true
    else if mode = 2 ∨ mode = 3 then
      match params with
      | none => .ok false
      | some ps =>
        if ps.length < 4 then .panicked
        else .ok (decide (state.params = (ps.getD 0 0, ps.getD 1 0, ps.getD 2 0, ps.getD 3 0)))
    else .ok false
  else .ok false

/-- The `switch mode` dispatch of `setLedMode`: modes 0/1 share command 0x03
with a 0/1 payload, blink is command 0x04 and breath 0x05 (both carrying the
raw params slice, nil becoming empty); any other mode hits no case, so no bus
write happens and `err` stays nil (zero writes). -/
def modeDispatch (env : Env) (id mode : Nat) (params : Option (List Nat)) :
    Option CmdFailed × Nat :=
  if mode = 0 then modifyLedWithRetry env id 0x03 [0] none
  else if mode = 1 then modifyLedWithRetry env id 0x03 [1] none
  else if mode = 2 then modifyLedWithRetry env id 0x04 (params.getD []) none
  else if mode = 3 then modifyLedWithRetry env id 0x05 (params.getD []) none
  else (none, 0)

/-- The params value cached by `setLedMode` on success: the 4 parameter bytes
when `params != nil && (mode == 2 || mode == 3) && len(params) == 4`,
otherwise the zero array. -/
def cacheModeParams (mode : Nat) (params : Option (List Nat)) : Nat × Nat × Nat × Nat :=
  if params ≠ none ∧ (mode = 2 ∨ mode = 3) ∧ (params.getD []).length = 4 then
    ((params.getD []).getD 0 0, (params.getD []).getD 1 0,
      (params.getD []).getD 2 0, (params.getD []).getD 3 0)
  else (0, 0, 0, 0)

/-- `setLedMode` from `leds.go`: after the no-op guard (`modeNoop`, which may
panic), the mode is dispatched (`modeDispatch`); when `err` is nil the cache
entry's mode and params are updated (`cacheModeParams`) and the status cache
is refreshed. The last component counts bus write transactions. -/
def setLedMode (u : UGreenLeds) (env : Env) (id mode : Nat) (params : Option (List Nat)) :
    GoResult (Option CmdFailed × UGreenLeds × Nat) :=
  match modeNoop (u.lastLedStates id) mode params with
  | .panicked => .panicked
  | .ok true => .ok (none, u, 0)
  | .ok false =>
    let r := modeDispatch env id mode params
    match r.1 with
    | none =>
      let state2 :=
        { u.lastLedStates id with mode := mode, params := cacheModeParams mode params }
      let u2 : UGreenLeds :=
        { u with lastLedStates := fun j => if j = id then state2 else u.lastLedStates j }
      .ok (none, updateLedStatus u2 id env.statusReadBytes, r.2)
    | some e => .ok (some e, u, r.2)

/-- An 11-byte status reply that passes the checksum (sum 1, trailing u16 1)
and reports mode "on": used as a concrete well-behaved device reply. -/
def goodBytes : List Nat := [1, 0, 0, 0, 0, 0, 0, 0, 0, 0, 1]

/-- A transport oracle on which every transaction succeeds and every status
poll returns `goodBytes`. -/
def env0 : Env :=
  { writeErrno := fun _ => none
    readBytes := fun _ _ => some goodBytes
    statusReadBytes := some goodBytes }

/-- A transport oracle whose first write fails with errno 5 and whose later
writes succeed; all polls return `goodBytes`, the opportunistic status
refresh read fails. -/
def env1 : Env :=
  { writeErrno := fun i => if i = 0 then some 5 else none
    readBytes := fun _ _ => some goodBytes
    statusReadBytes := none }

/-- A handle whose cache reports every LED in blink mode (mode 2) with zero
params: the state reached after a successful blink command. -/
def blinkCached : UGreenLeds :=
  { lastLedStates := fun _ => { ledState.zero with mode := 2 }
    lastLedStatus := fun _ => none }

/-- A byte sequence whose payload sum is 65537 (larger than a u16) while the
trailing big-endian u16 is 1: 257 bytes of 0xff, one byte 0x02, checksum
bytes 0x00 0x01. -/
def c1cex : List Nat := List.replicate 257 255 ++ [2, 0, 1]

set_option maxRecDepth 100000 in
/-- C1 counterexample: `c1cex` is a genuine byte sequence of length ≥ 2 whose
payload sum reduced mod 65536 equals the trailing big-endian u16 (and the sum
is non-zero, whether or not it is reduced first), yet `verifyChecksum` returns
false, because the code compares the untruncated sum. -/
theorem c1_counterexample :
    2 ≤ c1cex.length ∧ (∀ x ∈ c1cex, x < 256) ∧
    (c1cex.take (c1cex.length - 2)).sum % 65536 =
      bigEndianU16 (c1cex.getD (c1cex.length - 2) 0) (c1cex.getD (c1cex.length - 1) 0) ∧
    (c1cex.take (c1cex.length - 2)).sum ≠ 0 ∧
    bigEndianU16 (c1cex.getD (c1cex.length - 2) 0) (c1cex.getD (c1cex.length - 1) 0) ≠ 0 ∧
    verifyChecksum c1cex = false := by decide

/-- C1 amended: for every byte sequence `b` with `len(b) ≥ 2`,
`verifyChecksum b` holds iff the untruncated sum of `b[0:len-2]` equals the
big-endian u16 in the last two bytes and that sum is non-zero. -/
theorem verifyChecksum_iff (b : List Nat) (h : 2 ≤ b.length) :
    verifyChecksum b = true ↔
      ((b.take (b.length - 2)).sum =
          bigEndianU16 (b.getD (b.length - 2) 0) (b.getD (b.length - 1) 0) ∧
        (b.take (b.length - 2)).sum ≠ 0) := by
  have hlt : ¬ b.length < 2 := by omega
  simp only [verifyChecksum, if_neg hlt, Bool.and_eq_true, bne_iff_ne, beq_iff_eq, ne_eq]
  tauto

/-- Witness for `verifyChecksum_iff` at the concrete sequence `[1, 0, 1]`. -/
theorem verifyChecksum_iff_witness :
    verifyChecksum [1, 0, 1] = true ↔
      ((([1, 0, 1] : List Nat).take (([1, 0, 1] : List Nat).length - 2)).sum =
          bigEndianU16 (([1, 0, 1] : List Nat).getD (([1, 0, 1] : List Nat).length - 2) 0)
            (([1, 0, 1] : List Nat).getD (([1, 0, 1] : List Nat).length - 1) 0) ∧
        (([1, 0, 1] : List Nat).take (([1, 0, 1] : List Nat).length - 2)).sum ≠ 0) :=
  verifyChecksum_iff [1, 0, 1] (by decide)

/-- C3: on any input of length ≠ 11 or with a failing checksum,
`parseLedStatus` returns the zero `LedStatus` (`Available = false`, every
other field zeroed); being a total function, it never raises. -/
theorem parseLedStatus_invalid (data : List Nat)
    (h : data.length ≠ 11 ∨ verifyChecksum data = false) :
    parseLedStatus data = LedStatus.zero := by
  rcases h with h | h <;> simp [parseLedStatus, h]

/-- Witness for `parseLedStatus_invalid` at the empty input. -/
theorem parseLedStatus_invalid_witness : parseLedStatus [] = LedStatus.zero :=
  parseLedStatus_invalid [] (Or.inl (by decide))

/-- C7: on every 11-byte input that passes checksum validation,
`parseLedStatus` marks the LED available, maps byte 0 through the mode table
`off/on/blink/breath` (index ≥ 4 giving "unknown"), sets `TOn` to the
big-endian u16 of bytes 7..8, and derives `TOff` so that `TOn + TOff` equals
the big-endian u16 cycle duration of bytes 5..6 (as u16 arithmetic, i.e. mod
65536). -/
theorem parseLedStatus_valid (data : List Nat) (hlen : data.length = 11)
    (hck : verifyChecksum data = true) (hbytes : ∀ x ∈ data, x < 256) :
    (parseLedStatus data).Available = true ∧
    (data.getD 0 0 = 0 → (parseLedStatus data).OpMode = "off") ∧
    (data.getD 0 0 = 1 → (parseLedStatus data).OpMode = "on") ∧
    (data.getD 0 0 = 2 → (parseLedStatus data).OpMode = "blink") ∧
    (data.getD 0 0 = 3 → (parseLedStatus data).OpMode = "breath") ∧
    (4 ≤ data.getD 0 0 → (parseLedStatus data).OpMode = "unknown") ∧
    (parseLedStatus data).TOn = bigEndianU16 (data.getD 7 0) (data.getD 8 0) ∧
    ((parseLedStatus data).TOn + (parseLedStatus data).TOff) % 65536 =
      bigEndianU16 (data.getD 5 0) (data.getD 6 0) := by
  rcases data with _ | ⟨a0, data⟩
  · exact absurd hlen (by simp)
  rcases data with _ | ⟨a1, data⟩
  · exact absurd hlen (by simp)
  rcases data with _ | ⟨a2, data⟩
  · exact absurd hlen (by simp)
  rcases data with _ | ⟨a3, data⟩
  · exact absurd hlen (by simp)
  rcases data with _ | ⟨a4, data⟩
  · exact absurd hlen (by simp)
  rcases data with _ | ⟨a5, data⟩
  · exact absurd hlen (by simp)
  rcases data with _ | ⟨a6, data⟩
  · exact absurd hlen (by simp)
  rcases data with _ | ⟨a7, data⟩
  · exact absurd hlen (by simp)
  rcases data with _ | ⟨a8, data⟩
  · exact absurd hlen (by simp)
  rcases data with _ | ⟨a9, data⟩
  · exact absurd hlen (by simp)
  rcases data with _ | ⟨a10, data⟩
  · exact absurd hlen (by simp)
  rcases data with _ | ⟨a11, data⟩
  case cons =>
    exact absurd hlen (by simp only [List.length_cons]; omega)
  have h5 : a5 < 256 := hbytes a5 (by simp)
  have h6 : a6 < 256 := hbytes a6 (by simp)
  have h7 : a7 < 256 := hbytes a7 (by simp)
  have h8 : a8 < 256 := hbytes a8 (by simp)
  refine ⟨?_, ?_, ?_, ?_, ?_, ?_, ?_, ?_⟩
  · simp [parseLedStatus, hck]
  · intro h0
    simp only [List.getD, List.getElem?_cons_zero, Option.getD_some] at h0
    subst h0
    simp [parseLedStatus, hck, opModes]
  · intro h0
    simp only [List.getD, List.getElem?_cons_zero, Option.getD_some] at h0
    subst h0
    simp [parseLedStatus, hck, opModes]
  · intro h0
    simp only [List.getD, List.getElem?_cons_zero, Option.getD_some] at h0
    subst h0
    simp [parseLedStatus, hck, opModes]
  · intro h0
    simp only [List.getD, List.getElem?_cons_zero, Option.getD_some] at h0
    subst h0
    simp [parseLedStatus, hck, opModes]
  · intro h0
    simp only [List.getD, List.getElem?_cons_zero, Option.getD_some] at h0
    simp only [parseLedStatus, hck, opModes, List.getD, List.getElem?_cons_zero,
      Option.getD_some]
    simp only [List.length_cons, List.length_nil]
    rw [if_neg (by simp), if_neg (by omega)]
  · simp [parseLedStatus, hck, bigEndianU16]
  · simp only [parseLedStatus, hck]
    simp [bigEndianU16]
    omega

/-- Witness for `parseLedStatus_valid` at a concrete valid 11-byte reply
(mode "on", cycle 200, on-duration 100, checksum 0x016e). -/
theorem parseLedStatus_valid_witness :
    (parseLedStatus [1, 5, 10, 20, 30, 0, 200, 0, 100, 1, 110]).Available = true ∧
    (([1, 5, 10, 20, 30, 0, 200, 0, 100, 1, 110] : List Nat).getD 0 0 = 0 →
      (parseLedStatus [1, 5, 10, 20, 30, 0, 200, 0, 100, 1, 110]).OpMode = "off") ∧
    (([1, 5, 10, 20, 30, 0, 200, 0, 100, 1, 110] : List Nat).getD 0 0 = 1 →
      (parseLedStatus [1, 5, 10, 20, 30, 0, 200, 0, 100, 1, 110]).OpMode = "on") ∧
    (([1, 5, 10, 20, 30, 0, 200, 0, 100, 1, 110] : List Nat).getD 0 0 = 2 →
      (parseLedStatus [1, 5, 10, 20, 30, 0, 200, 0, 100, 1, 110]).OpMode = "blink") ∧
    (([1, 5, 10, 20, 30, 0, 200, 0, 100, 1, 110] : List Nat).getD 0 0 = 3 →
      (parseLedStatus [1, 5, 10, 20, 30, 0, 200, 0, 100, 1, 110]).OpMode = "breath") ∧
    (4 ≤ ([1, 5, 10, 20, 30, 0, 200, 0, 100, 1, 110] : List Nat).getD 0 0 →
      (parseLedStatus [1, 5, 10, 20, 30, 0, 200, 0, 100, 1, 110]).OpMode = "unknown") ∧
    (parseLedStatus [1, 5, 10, 20, 30, 0, 200, 0, 100, 1, 110]).TOn =
      bigEndianU16 (([1, 5, 10, 20, 30, 0, 200, 0, 100, 1, 110] : List Nat).getD 7 0)
        (([1, 5, 10, 20, 30, 0, 200, 0, 100, 1, 110] : List Nat).getD 8 0) ∧
    ((parseLedStatus [1, 5, 10, 20, 30, 0, 200, 0, 100, 1, 110]).TOn +
        (parseLedStatus [1, 5, 10, 20, 30, 0, 200, 0, 100, 1, 110]).TOff) % 65536 =
      bigEndianU16 (([1, 5, 10, 20, 30, 0, 200, 0, 100, 1, 110] : List Nat).getD 5 0)
        (([1, 5, 10, 20, 30, 0, 200, 0, 100, 1, 110] : List Nat).getD 6 0) :=
  parseLedStatus_valid [1, 5, 10, 20, 30, 0, 200, 0, 100, 1, 110]
    (by decide) (by decide) (by decide)

/-- C2: the two checksum bytes of the frame built by `writeLedCommand` encode
the 16-bit sum of the frame's first 10 bytes computed with the identity byte
held at zero; consequently the transmitted checksum bytes are identical for
any two LED identities with the same command and params — the checksum never
covers the actual addressed LED. -/
theorem encodeFrame_checksum (ledID1 ledID2 command : Nat) (params : List Nat) :
    (encodeFrame ledID1 command params).getD 10 0 =
      (((encodeFrame ledID1 command params).take 10).set 0 0).sum % 65536 / 256 ∧
    (encodeFrame ledID1 command params).getD 11 0 =
      (((encodeFrame ledID1 command params).take 10).set 0 0).sum % 256 ∧
    (encodeFrame ledID1 command params).drop 10 =
      (encodeFrame ledID2 command params).drop 10 := by
  obtain ⟨p0, p1, p2, p3, hq⟩ :
      ∃ p0 p1 p2 p3, (params ++ [0, 0, 0, 0]).take 4 = [p0, p1, p2, p3] := by
    match params with
    | [] => exact ⟨0, 0, 0, 0, rfl⟩
    | [a] => exact ⟨a, 0, 0, 0, rfl⟩
    | [a, b] => exact ⟨a, b, 0, 0, rfl⟩
    | [a, b, c] => exact ⟨a, b, c, 0, rfl⟩
    | a :: b :: c :: d :: rest => exact ⟨a, b, c, d, rfl⟩
  refine ⟨?_, ?_, ?_⟩ <;> simp [encodeFrame, hq, List.getD] <;> omega

/-- Witness-style instance of `encodeFrame_checksum` is not required (the
theorem has no propositional hypotheses), but the spec's concrete example is
still checked: encoding `ledId=3, command=0x02, params=[10,20,30]` yields
checksum bytes matching the zero-identity sum, identically for `ledId=7`. -/
theorem encodeFrame_checksum_example :
    encodeFrame 3 2 [10, 20, 30] = [3, 0xa0, 0x01, 0, 0, 2, 10, 20, 30, 0, 0, 0xdf] ∧
    (encodeFrame 3 2 [10, 20, 30]).drop 10 = (encodeFrame 7 2 [10, 20, 30]).drop 10 := by
  decide

/-- C8 counterexample: called with 5 parameter bytes, the encoder silently
drops the fifth byte — the frame coincides with the one for the first 4
params and still has exactly 12 bytes — and the write path succeeds with no
error of any kind (there is no `InvalidParams` failure in the code). -/
theorem encodeFrame_truncates_cex :
    encodeFrame 3 2 [10, 20, 30, 40, 50] = encodeFrame 3 2 [10, 20, 30, 40] ∧
    (encodeFrame 3 2 [10, 20, 30, 40, 50]).length = 12 ∧
    (modifyLedWithRetry env0 3 2 [10, 20, 30, 40, 50] none).1 = none := by
  decide

/-- C8 amended: parameter lists shorter than 4 are zero-padded into the frame
and longer ones are silently truncated to their first 4 bytes: for every
j < 4 the frame byte 6+j is `params[j]` when present and 0 otherwise, and the
frame always has exactly 12 bytes (nothing beyond 4 params is transmitted,
and no error is raised — the encoder is total). -/
theorem encodeFrame_params (ledID command : Nat) (params : List Nat) (j : Nat)
    (hj : j < 4) :
    (encodeFrame ledID command params).getD (6 + j) 0 = params.getD j 0 ∧
    (encodeFrame ledID command params).length = 12 := by
  rcases params with _ | ⟨a, _ | ⟨b, _ | ⟨c, _ | ⟨d, rest⟩⟩⟩⟩ <;>
    (interval_cases j <;> simp [encodeFrame, List.getD])

/-- Witness for `encodeFrame_params` at `j = 2` with a 1-byte params list:
frame byte 8 is the zero padding. -/
theorem encodeFrame_params_witness :
    (encodeFrame 3 1 [77]).getD (6 + 2) 0 = ([77] : List Nat).getD 2 0 ∧
    (encodeFrame 3 1 [77]).length = 12 :=
  encodeFrame_params 3 1 [77] 2 (by decide)

/-- Exhausted retries: when no attempt in the window has a
transport-successful and confirmed write, `modifyAux` fails with the last
write's transport error and performs one bus write per attempt. -/
lemma modifyAux_all_fail (env : Env) (id : Nat) (wantOn : Option Bool) (fuel : Nat) :
    ∀ (i : Nat) (lastErr : Option Nat),
      (∀ j, i ≤ j → j < i + fuel →
        ¬(env.writeErrno j = none ∧ confirmStatus wantOn (env.readBytes j) = true)) →
      modifyAux env id wantOn i fuel lastErr =
        (some ⟨ledNames.getD id "", maxRetry,
          if fuel = 0 then lastErr else env.writeErrno (i + fuel - 1)⟩, fuel) := by
  induction fuel with
  | zero => intro i lastErr _; simp [modifyAux]
  | succ fuel ih =>
    intro i lastErr h
    have hcond : ((env.writeErrno i).isNone &&
        confirmStatus wantOn (env.readBytes i)) = false := by
      cases he : env.writeErrno i with
      | none =>
        simp only [Option.isNone_none, Bool.true_and]
        cases hc : confirmStatus wantOn (env.readBytes i) with
        | false => rfl
        | true => exact absurd ⟨he, hc⟩ (h i (Nat.le_refl i) (by omega))
      | some e => simp
    rw [modifyAux]
    simp only [hcond, Bool.false_eq_true, if_false]
    rw [ih (i + 1) (env.writeErrno i) (fun j hj1 hj2 => h j (by omega) (by omega))]
    rcases Nat.eq_zero_or_pos fuel with hf | hf
    · subst hf; simp
    · have hne : ¬ fuel = 0 := by omega
      have hne2 : ¬ fuel + 1 = 0 := by omega
      simp only [hne, hne2, if_false]
      have heq : i + 1 + fuel - 1 = i + (fuel + 1) - 1 := by omega
      rw [heq]

/-- Recovery: when the first writes of the window fail at the transport level
and attempt `k` writes successfully and is confirmed, `modifyAux` returns
success after having performed `k + 1 - i` bus writes. -/
lemma modifyAux_success (env : Env) (id : Nat) (wantOn : Option Bool) (fuel : Nat) :
    ∀ (i k : Nat) (lastErr : Option Nat),
      i ≤ k → k < i + fuel →
      (∀ j, i ≤ j → j < k → env.writeErrno j ≠ none) →
      env.writeErrno k = none → confirmStatus wantOn (env.readBytes k) = true →
      modifyAux env id wantOn i fuel lastErr = ((none : Option CmdFailed), k + 1 - i) := by
  induction fuel with
  | zero => intro i k lastErr h1 h2 _ _ _; exact absurd h2 (by omega)
  | succ fuel ih =>
    intro i k lastErr h1 h2 h3 h4 h5
    rcases Nat.eq_or_lt_of_le h1 with rfl | hik
    · rw [modifyAux]
      simp [h4, h5]
    · have hwi : env.writeErrno i ≠ none := h3 i (Nat.le_refl i) hik
      have hcond : ((env.writeErrno i).isNone &&
          confirmStatus wantOn (env.readBytes i)) = false := by
        cases he : env.writeErrno i with
        | none => exact absurd he hwi
        | some e => simp
      rw [modifyAux]
      simp only [hcond, Bool.false_eq_true, if_false]
      rw [ih (i + 1) k (env.writeErrno i) (by omega) (by omega)
        (fun j hj1 hj2 => h3 j (by omega) hj2) h4 h5]
      simp only [Prod.mk.injEq]
      exact ⟨by simp, by omega⟩

/-- Soundness: `modifyAux` only reports success when some attempt in its
window wrote successfully and was confirmed. -/
lemma modifyAux_none_imp (env : Env) (id : Nat) (wantOn : Option Bool) (fuel : Nat) :
    ∀ (i : Nat) (lastErr : Option Nat),
      (modifyAux env id wantOn i fuel lastErr).1 = none →
      ∃ j, i ≤ j ∧ j < i + fuel ∧ env.writeErrno j = none ∧
        confirmStatus wantOn (env.readBytes j) = true := by
  induction fuel with
  | zero => intro i lastErr h; exact absurd h (by simp [modifyAux])
  | succ fuel ih =>
    intro i lastErr h
    rw [modifyAux] at h
    by_cases hc : ((env.writeErrno i).isNone &&
        confirmStatus wantOn (env.readBytes i)) = true
    · obtain ⟨h1, h2⟩ := Bool.and_eq_true_iff.mp hc
      exact ⟨i, Nat.le_refl i, by omega, Option.isNone_iff_eq_none.mp h1, h2⟩
    · rw [if_neg hc] at h
      simp only at h
      obtain ⟨j, hj1, hj2, hj3, hj4⟩ := ih (i + 1) (env.writeErrno i) h
      exact ⟨j, by omega, by omega, hj3, hj4⟩

/-- C4: if the first `k < maxRetry` write attempts fail at the transport
level and attempt `k` writes successfully and is confirmed by the status
poll, `modifyLedWithRetry` returns success; if all `maxRetry` attempts
complete without a confirmed write, it returns the `CmdFailed` error carrying
the LED's identity (its name) and the last transport error; and it never
returns success unless some attempt was written and confirmed. -/
theorem modifyLedWithRetry_spec (env : Env) (id command : Nat) (params : List Nat)
    (wantOn : Option Bool) (k : Nat) :
    ((k < maxRetry ∧ (∀ j, j < k → env.writeErrno j ≠ none) ∧
        env.writeErrno k = none ∧ confirmStatus wantOn (env.readBytes k) = true) →
      (modifyLedWithRetry env id command params wantOn).1 = none) ∧
    ((∀ i, i < maxRetry →
        ¬(env.writeErrno i = none ∧ confirmStatus wantOn (env.readBytes i) = true)) →
      (modifyLedWithRetry env id command params wantOn).1 =
        some ⟨ledNames.getD id "", maxRetry, env.writeErrno (maxRetry - 1)⟩) ∧
    ((modifyLedWithRetry env id command params wantOn).1 = none →
      ∃ j, j < maxRetry ∧ env.writeErrno j = none ∧
        confirmStatus wantOn (env.readBytes j) = true) := by
  refine ⟨?_, ?_, ?_⟩
  · rintro ⟨hk, hfail, hw, hc⟩
    have hs := modifyAux_success env id wantOn maxRetry 0 k none (Nat.zero_le k)
      (by omega) (fun j _ hj => hfail j hj) hw hc
    simp [modifyLedWithRetry, hs]
  · intro h
    have ha := modifyAux_all_fail env id wantOn maxRetry 0 none
      (fun j hj1 hj2 => h j (by omega))
    simp only [modifyLedWithRetry, ha]
    simp [maxRetry]
  · intro h
    obtain ⟨j, hj1, hj2, hj3, hj4⟩ :=
      modifyAux_none_imp env id wantOn maxRetry 0 none h
    exact ⟨j, by omega, hj3, hj4⟩

/-- Witness for `modifyLedWithRetry_spec`: on the all-success oracle `env0`
the first attempt (k = 0) is written and confirmed, so the call succeeds. -/
theorem modifyLedWithRetry_spec_witness :
    (modifyLedWithRetry env0 0 2 [255, 0, 0] none).1 = none :=
  (modifyLedWithRetry_spec env0 0 2 [255, 0, 0] none 0).1
    ⟨by decide, fun j hj => absurd hj (Nat.not_lt_zero j), by decide, by decide⟩

/-- `updateLedStatus` never touches the per-LED state cache. -/
lemma updateLedStatus_lastLedStates (u : UGreenLeds) (id : Nat) (r : Option (List Nat)) :
    (updateLedStatus u id r).lastLedStates = u.lastLedStates := by
  cases r <;> rfl

/-- Cache-hit case of `setLedColor`: nil error, untouched handle, no writes. -/
lemma setLedColor_hit (u : UGreenLeds) (env : Env) (id r g b : Nat)
    (h : (u.lastLedStates id).color = (r, g, b)) :
    setLedColor u env id r g b = (none, u, 0) := by
  simp [setLedColor, h]

/-- Successful-write case of `setLedColor`. -/
lemma setLedColor_miss_ok (u : UGreenLeds) (env : Env) (id r g b : Nat)
    (hmiss : (u.lastLedStates id).color ≠ (r, g, b))
    (hm : (modifyLedWithRetry env id 0x02 [r, g, b] none).1 = none) :
    setLedColor u env id r g b =
      (none,
        updateLedStatus
          { u with lastLedStates := fun j => if j = id then
              { u.lastLedStates id with color := (r, g, b) } else u.lastLedStates j }
          id env.statusReadBytes,
        (modifyLedWithRetry env id 0x02 [r, g, b] none).2) := by
  simp only [setLedColor, if_neg hmiss, hm]

/-- Failed-write case of `setLedColor`: error returned, handle untouched. -/
lemma setLedColor_miss_err (u : UGreenLeds) (env : Env) (id r g b : Nat) (e : CmdFailed)
    (hmiss : (u.lastLedStates id).color ≠ (r, g, b))
    (hm : (modifyLedWithRetry env id 0x02 [r, g, b] none).1 = some e) :
    setLedColor u env id r g b =
      (some e, u, (modifyLedWithRetry env id 0x02 [r, g, b] none).2) := by
  simp only [setLedColor, if_neg hmiss, hm]

/-- Cache-hit case of `setLedBrightness`. -/
lemma setLedBrightness_hit (u : UGreenLeds) (env : Env) (id v : Nat)
    (h : (u.lastLedStates id).brightness = v) :
    setLedBrightness u env id v = (none, u, 0) := by
  simp [setLedBrightness, h]

/-- Successful-write case of `setLedBrightness`. -/
lemma setLedBrightness_miss_ok (u : UGreenLeds) (env : Env) (id v : Nat)
    (hmiss : (u.lastLedStates id).brightness ≠ v)
    (hm : (modifyLedWithRetry env id 0x01 [v] none).1 = none) :
    setLedBrightness u env id v =
      (none,
        updateLedStatus
          { u with lastLedStates := fun j => if j = id then
              { u.lastLedStates id with brightness := v } else u.lastLedStates j }
          id env.statusReadBytes,
        (modifyLedWithRetry env id 0x01 [v] none).2) := by
  simp only [setLedBrightness, if_neg hmiss, hm]

/-- Failed-write case of `setLedBrightness`. -/
lemma setLedBrightness_miss_err (u : UGreenLeds) (env : Env) (id v : Nat) (e : CmdFailed)
    (hmiss : (u.lastLedStates id).brightness ≠ v)
    (hm : (modifyLedWithRetry env id 0x01 [v] none).1 = some e) :
    setLedBrightness u env id v =
      (some e, u, (modifyLedWithRetry env id 0x01 [v] none).2) := by
  simp only [setLedBrightness, if_neg hmiss, hm]

/-- No-op case of `setLedMode`. -/
lemma setLedMode_noop_eq (u : UGreenLeds) (env : Env) (id mode : Nat)
    (params : Option (List Nat))
    (h : modeNoop (u.lastLedStates id) mode params = .ok true) :
    setLedMode u env id mode params = .ok (none, u, 0) := by
  simp [setLedMode, h]

/-- Panic case of `setLedMode`. -/
lemma setLedMode_panic_eq (u : UGreenLeds) (env : Env) (id mode : Nat)
    (params : Option (List Nat))
    (h : modeNoop (u.lastLedStates id) mode params = .panicked) :
    setLedMode u env id mode params = .panicked := by
  simp [setLedMode, h]

/-- Dispatch-success case of `setLedMode`. -/
lemma setLedMode_go_ok (u : UGreenLeds) (env : Env) (id mode : Nat)
    (params : Option (List Nat))
    (h : modeNoop (u.lastLedStates id) mode params = .ok false)
    (hm : (modeDispatch env id mode params).1 = none) :
    setLedMode u env id mode params =
      .ok (none,
        updateLedStatus
          { u with lastLedStates := fun j => if j = id then
              { u.lastLedStates id with mode := mode, params := cacheModeParams mode params }
            else u.lastLedStates j }
          id env.statusReadBytes,
        (modeDispatch env id mode params).2) := by
  simp only [setLedMode, h, hm]

/-- Dispatch-failure case of `setLedMode`. -/
lemma setLedMode_go_err (u : UGreenLeds) (env : Env) (id mode : Nat)
    (params : Option (List Nat)) (e : CmdFailed)
    (h : modeNoop (u.lastLedStates id) mode params = .ok false)
    (hm : (modeDispatch env id mode params).1 = some e) :
    setLedMode u env id mode params =
      .ok (some e, u, (modeDispatch env id mode params).2) := by
  simp only [setLedMode, h, hm]

/-- The no-op guard only fires when the cached mode equals the request. -/
lemma modeNoop_ok_true (state : ledState) (mode : Nat) (params : Option (List Nat))
    (h : modeNoop state mode params = .ok true) : state.mode = mode := by
  by_cases hm : state.mode = mode
  · exact hm
  · simp [modeNoop, hm] at h

/-- An unrecognised mode hits no switch case: no write, nil error. -/
lemma modeDispatch_unknown (env : Env) (id mode : Nat) (params : Option (List Nat))
    (h4 : 4 ≤ mode) : modeDispatch env id mode params = (none, 0) := by
  have h0 : mode ≠ 0 := by omega
  have h1 : mode ≠ 1 := by omega
  have h2 : mode ≠ 2 := by omega
  have h3 : mode ≠ 3 := by omega
  simp [modeDispatch, h0, h1, h2, h3]

/-- C5 counterexample: on a transport whose first write fails and whose
second succeeds, `setLedColor` succeeds after 2 bus writes; the identical
second call is a cache hit with 0 writes, so the two calls together perform
2 bus write transactions, not exactly one, although the first call
succeeded. -/
theorem setLedColor_once_cex :
    (setLedColor UGreenLeds.new env1 0 255 0 0).1 = none ∧
    (setLedColor UGreenLeds.new env1 0 255 0 0).2.2 = 2 ∧
    (setLedColor (setLedColor UGreenLeds.new env1 0 255 0 0).2.1 env1 0 255 0 0).1 = none ∧
    (setLedColor (setLedColor UGreenLeds.new env1 0 255 0 0).2.1 env1 0 255 0 0).2.2 = 0 ∧
    (setLedColor UGreenLeds.new env1 0 255 0 0).2.2 +
      (setLedColor (setLedColor UGreenLeds.new env1 0 255 0 0).2.1 env1 0 255 0 0).2.2 ≠ 1 := by
  decide

/-- C5 amended: if the first `setColor(id,r,g,b)` call succeeds, the second
identical call is a cache hit: it returns success, leaves the handle
untouched and performs zero bus transactions; and when the first call misses
the cache and its very first write attempt succeeds and is confirmed, the
first call performs exactly one bus write (so the two calls then total one
write transaction). -/
theorem setLedColor_idempotent (envA envB : Env) (u : UGreenLeds) (id r g b : Nat)
    (h : (setLedColor u envA id r g b).1 = none) :
    setLedColor (setLedColor u envA id r g b).2.1 envB id r g b =
      (none, (setLedColor u envA id r g b).2.1, 0) ∧
    ((u.lastLedStates id).color ≠ (r, g, b) →
      envA.writeErrno 0 = none →
      confirmStatus none (envA.readBytes 0) = true →
      (setLedColor u envA id r g b).2.2 = 1) := by
  constructor
  · have hcol : ((setLedColor u envA id r g b).2.1.lastLedStates id).color = (r, g, b) := by
      by_cases hhit : (u.lastLedStates id).color = (r, g, b)
      · rw [setLedColor_hit u envA id r g b hhit]; exact hhit
      · cases hm : (modifyLedWithRetry envA id 0x02 [r, g, b] none).1 with
        | none =>
          rw [setLedColor_miss_ok u envA id r g b hhit hm]
          simp [updateLedStatus_lastLedStates]
        | some e =>
          rw [setLedColor_miss_err u envA id r g b e hhit hm] at h
          exact absurd h (by simp)
    exact setLedColor_hit _ envB id r g b hcol
  · intro hmiss hw hc
    have hs := modifyAux_success envA id none maxRetry 0 0 none (Nat.le_refl 0)
      (by decide) (fun j _ hj2 => absurd hj2 (Nat.not_lt_zero j)) hw hc
    have hm1 : (modifyLedWithRetry envA id 0x02 [r, g, b] none).1 = none := by
      rw [modifyLedWithRetry, hs]
    rw [setLedColor_miss_ok u envA id r g b hmiss hm1]
    simp [modifyLedWithRetry, hs]

/-- Witness for `setLedColor_idempotent` on the all-success oracle: the
second identical call is a pure cache hit and the first call used exactly one
bus write. -/
theorem setLedColor_idempotent_witness :
    (setLedColor (setLedColor UGreenLeds.new env0 0 255 0 0).2.1 env0 0 255 0 0 =
      (none, (setLedColor UGreenLeds.new env0 0 255 0 0).2.1, 0)) ∧
    (setLedColor UGreenLeds.new env0 0 255 0 0).2.2 = 1 :=
  ⟨(setLedColor_idempotent env0 env0 UGreenLeds.new 0 255 0 0 (by decide)).1,
   (setLedColor_idempotent env0 env0 UGreenLeds.new 0 255 0 0 (by decide)).2
     (by decide) (by decide) (by decide)⟩

/-- C6: for each state-mutating operation, the handle (both caches) is left
exactly as it was whenever the write-confirm cycle fails; on success only the
fields corresponding to the operation change in the addressed LED's cache
entry and no other LED's entry changes. -/
theorem cacheMutationDiscipline (env : Env) (u : UGreenLeds) (id r g b v mode : Nat)
    (params : Option (List Nat)) :
    ((setLedColor u env id r g b).1 ≠ none → (setLedColor u env id r g b).2.1 = u) ∧
    ((setLedColor u env id r g b).1 = none →
      ((setLedColor u env id r g b).2.1.lastLedStates id).color = (r, g, b) ∧
      ((setLedColor u env id r g b).2.1.lastLedStates id).brightness =
        (u.lastLedStates id).brightness ∧
      ((setLedColor u env id r g b).2.1.lastLedStates id).mode = (u.lastLedStates id).mode ∧
      ((setLedColor u env id r g b).2.1.lastLedStates id).params =
        (u.lastLedStates id).params ∧
      ∀ j, j ≠ id → (setLedColor u env id r g b).2.1.lastLedStates j = u.lastLedStates j) ∧
    ((setLedBrightness u env id v).1 ≠ none → (setLedBrightness u env id v).2.1 = u) ∧
    ((setLedBrightness u env id v).1 = none →
      ((setLedBrightness u env id v).2.1.lastLedStates id).brightness = v ∧
      ((setLedBrightness u env id v).2.1.lastLedStates id).color =
        (u.lastLedStates id).color ∧
      ((setLedBrightness u env id v).2.1.lastLedStates id).mode = (u.lastLedStates id).mode ∧
      ((setLedBrightness u env id v).2.1.lastLedStates id).params =
        (u.lastLedStates id).params ∧
      ∀ j, j ≠ id → (setLedBrightness u env id v).2.1.lastLedStates j = u.lastLedStates j) ∧
    (∀ res u2 n, setLedMode u env id mode params = .ok (res, u2, n) →
      (res ≠ none → u2 = u) ∧
      (res = none →
        (u2.lastLedStates id).mode = mode ∧
        (u2.lastLedStates id).color = (u.lastLedStates id).color ∧
        (u2.lastLedStates id).brightness = (u.lastLedStates id).brightness ∧
        ∀ j, j ≠ id → u2.lastLedStates j = u.lastLedStates j)) := by
  refine ⟨?_, ?_, ?_, ?_, ?_⟩
  · intro hne
    by_cases hhit : (u.lastLedStates id).color = (r, g, b)
    · rw [setLedColor_hit u env id r g b hhit] at hne; exact absurd rfl hne
    · cases hm : (modifyLedWithRetry env id 0x02 [r, g, b] none).1 with
      | none => rw [setLedColor_miss_ok u env id r g b hhit hm] at hne; exact absurd rfl hne
      | some e => rw [setLedColor_miss_err u env id r g b e hhit hm]
  · intro hok
    by_cases hhit : (u.lastLedStates id).color = (r, g, b)
    · rw [setLedColor_hit u env id r g b hhit]
      exact ⟨hhit, rfl, rfl, rfl, fun j _ => rfl⟩
    · cases hm : (modifyLedWithRetry env id 0x02 [r, g, b] none).1 with
      | some e =>
        rw [setLedColor_miss_err u env id r g b e hhit hm] at hok
        exact absurd hok (by simp)
      | none =>
        rw [setLedColor_miss_ok u env id r g b hhit hm]
        refine ⟨?_, ?_, ?_, ?_, ?_⟩
        · simp [updateLedStatus_lastLedStates]
        · simp [updateLedStatus_lastLedStates]
        · simp [updateLedStatus_lastLedStates]
        · simp [updateLedStatus_lastLedStates]
        · intro j hj; simp [updateLedStatus_lastLedStates, hj]
  · intro hne
    by_cases hhit : (u.lastLedStates id).brightness = v
    · rw [setLedBrightness_hit u env id v hhit] at hne; exact absurd rfl hne
    · cases hm : (modifyLedWithRetry env id 0x01 [v] none).1 with
      | none => rw [setLedBrightness_miss_ok u env id v hhit hm] at hne; exact absurd rfl hne
      | some e => rw [setLedBrightness_miss_err u env id v e hhit hm]
  · intro hok
    by_cases hhit : (u.lastLedStates id).brightness = v
    · rw [setLedBrightness_hit u env id v hhit]
      exact ⟨hhit, rfl, rfl, rfl, fun j _ => rfl⟩
    · cases hm : (modifyLedWithRetry env id 0x01 [v] none).1 with
      | some e =>
        rw [setLedBrightness_miss_err u env id v e hhit hm] at hok
        exact absurd hok (by simp)
      | none =>
        rw [setLedBrightness_miss_ok u env id v hhit hm]
        refine ⟨?_, ?_, ?_, ?_, ?_⟩
        · simp [updateLedStatus_lastLedStates]
        · simp [updateLedStatus_lastLedStates]
        · simp [updateLedStatus_lastLedStates]
        · simp [updateLedStatus_lastLedStates]
        · intro j hj; simp [updateLedStatus_lastLedStates, hj]
  · intro res u2 n hcall
    cases hn : modeNoop (u.lastLedStates id) mode params with
    | panicked =>
      rw [setLedMode_panic_eq u env id mode params hn] at hcall
      exact absurd hcall (by simp)
    | ok bb =>
      cases bb with
      | true =>
        rw [setLedMode_noop_eq u env id mode params hn] at hcall
        injection hcall with hinj
        simp only [Prod.mk.injEq] at hinj
        obtain ⟨h1, h2, h3⟩ := hinj
        constructor
        · intro hne; exact absurd h1.symm hne
        · intro _
          rw [← h2]
          exact ⟨modeNoop_ok_true _ _ _ hn, rfl, rfl, fun j _ => rfl⟩
      | false =>
        cases hm : (modeDispatch env id mode params).1 with
        | some e =>
          rw [setLedMode_go_err u env id mode params e hn hm] at hcall
          injection hcall with hinj
          simp only [Prod.mk.injEq] at hinj
          obtain ⟨h1, h2, h3⟩ := hinj
          constructor
          · intro _; exact h2.symm
          · intro hres; rw [← h1] at hres; exact absurd hres (by simp)
        | none =>
          rw [setLedMode_go_ok u env id mode params hn hm] at hcall
          injection hcall with hinj
          simp only [Prod.mk.injEq] at hinj
          obtain ⟨h1, h2, h3⟩ := hinj
          constructor
          · intro hne; exact absurd h1.symm hne
          · intro _
            rw [← h2]
            refine ⟨?_, ?_, ?_, ?_⟩
            · simp [updateLedStatus_lastLedStates]
            · simp [updateLedStatus_lastLedStates]
            · simp [updateLedStatus_lastLedStates]
            · intro j hj; simp [updateLedStatus_lastLedStates, hj]

/-- Witness for `cacheMutationDiscipline`: a successful `setLedColor` on a
fresh handle sets the cached color and preserves the cached brightness. -/
theorem cacheMutationDiscipline_witness :
    ((setLedColor UGreenLeds.new env0 0 9 8 7).2.1.lastLedStates 0).color = (9, 8, 7) ∧
    ((setLedColor UGreenLeds.new env0 0 9 8 7).2.1.lastLedStates 0).brightness =
      (UGreenLeds.new.lastLedStates 0).brightness :=
  ⟨((cacheMutationDiscipline env0 UGreenLeds.new 0 9 8 7 0 0 none).2.1 (by decide)).1,
   ((cacheMutationDiscipline env0 UGreenLeds.new 0 9 8 7 0 0 none).2.1 (by decide)).2.1⟩

/-- C9: for a mode byte outside 0..3 that differs from the cached mode,
`setLedMode` performs no bus write at all yet returns success, records the
unknown mode byte in the per-LED cache, and refreshes the status cache (when
the opportunistic read succeeds). -/
theorem setLedMode_unknown_mode (env : Env) (u : UGreenLeds) (id mode : Nat)
    (params : Option (List Nat)) (h4 : 4 ≤ mode)
    (hne : (u.lastLedStates id).mode ≠ mode) :
    ∃ u2, setLedMode u env id mode params = .ok (none, u2, 0) ∧
      (u2.lastLedStates id).mode = mode ∧
      (∀ bs, env.statusReadBytes = some bs → u2.lastLedStatus id = some (parseLedStatus bs)) ∧
      (env.statusReadBytes = none → u2.lastLedStatus = u.lastLedStatus) := by
  have hn : modeNoop (u.lastLedStates id) mode params = .ok false := by
    simp [modeNoop, hne]
  have hd := modeDispatch_unknown env id mode params h4
  refine ⟨updateLedStatus
      { u with lastLedStates := fun j => if j = id then
          { u.lastLedStates id with mode := mode, params := cacheModeParams mode params }
        else u.lastLedStates j }
      id env.statusReadBytes, ?_, ?_, ?_, ?_⟩
  · rw [setLedMode_go_ok u env id mode params hn (by rw [hd]), hd]
  · rw [updateLedStatus_lastLedStates]; simp
  · intro bs hbs; simp [updateLedStatus, hbs]
  · intro hbs; simp [updateLedStatus, hbs]

/-- Witness for `setLedMode_unknown_mode` at mode byte 7 on a fresh handle. -/
theorem setLedMode_unknown_mode_witness :
    ∃ u2, setLedMode UGreenLeds.new env0 0 7 none = .ok (none, u2, 0) ∧
      (u2.lastLedStates 0).mode = 7 ∧
      (∀ bs, env0.statusReadBytes = some bs →
        u2.lastLedStatus 0 = some (parseLedStatus bs)) ∧
      (env0.statusReadBytes = none → u2.lastLedStatus = UGreenLeds.new.lastLedStatus) :=
  setLedMode_unknown_mode env0 UGreenLeds.new 0 7 none (by decide) (by decide)

/-- C10: when the cached mode equals the requested blink/breath mode and
params is non-nil with fewer than 4 elements, the no-op comparison indexes
`params[0..3]` out of range and `setLedMode` panics instead of returning an
error. -/
theorem setLedMode_shortParams_panics (env : Env) (u : UGreenLeds) (id mode : Nat)
    (ps : List Nat) (hmode : mode = 2 ∨ mode = 3)
    (hcache : (u.lastLedStates id).mode = mode) (hlen : ps.length < 4) :
    setLedMode u env id mode (some ps) = .panicked := by
  have h01 : ¬(mode = 0 ∨ mode = 1) := by rcases hmode with rfl | rfl <;> simp
  have hn : modeNoop (u.lastLedStates id) mode (some ps) = .panicked := by
    simp [modeNoop, hcache, h01, hmode, hlen]
  exact setLedMode_panic_eq u env id mode (some ps) hn

/-- Witness for `setLedMode_shortParams_panics`: requesting blink with
2-element params while blink is cached panics. -/
theorem setLedMode_shortParams_panics_witness :
    setLedMode blinkCached env0 0 2 (some [100, 200]) = .panicked :=
  setLedMode_shortParams_panics env0 blinkCached 0 2 [100, 200] (Or.inl rfl)
    (by decide) (by decide)

end UgreenLeds
